import Mathlib

/-!
Verification of the Quizly quiz-generation pipeline.

This file gives a shallow embedding of the core of the repository:

* `quiz_app/services/quiz_generation_service.py` (prompt building, response
  parsing, schema validation, bounded retry),
* `quiz_app/services/transcription_service.py` (transcription with scoped
  file cleanup),
* `quiz_app/api/views.py` (`QuizListCreateView.create`, `_run_pipeline`,
  `_save_quiz` and the persistence model from `quiz_app/models.py`),
* `sanity_check.py` (the command-line diagnostic entry point).

JSON values decoded by `json.loads` are embedded as the inductive `Json`
(numbers as `Int`; the claims under study never depend on float semantics).
Python exceptions are embedded as the `PyErr` type and fallible code returns
`Except PyErr`.  The external effects (yt-dlp download, the Whisper call and
the Gemini call composed with `json.loads`) are parameters of the embedded
functions: a run of the code is determined by the outcomes of those calls.
Quoting of values interpolated into Python error-message strings is elided
(a Python repr would quote embedded strings); no claim depends on it.
-/

namespace Quizly

/-- A JSON value as produced by json.loads: objects are association lists
in document order (keys unique as produced by the decoder). -/
inductive Json where
  | str (s : String)
  | num (n : Int)
  | bool (b : Bool)
  | null
  | arr (items : List Json)
  | obj (fields : List (String × Json))

/-- Python type name of an embedded value, as it appears in error messages. -/
def Json.typeName : Json → String
  | .str _ => "str"
  | .num _ => "int"
  | .bool _ => "bool"
  | .null => "NoneType"
  | .arr _ => "list"
  | .obj _ => "dict"

mutual

/-- Structural equality of JSON values (Python == on decoded values). -/
def Json.beq : Json → Json → Bool
  | .str a, .str b => a == b
  | .num a, .num b => a == b
  | .bool a, .bool b => a == b
  | .null, .null => true
  | .arr a, .arr b => Json.beqList a b
  | .obj a, .obj b => Json.beqObj a b
  | _, _ => false

/-- Pointwise equality of JSON arrays. -/
def Json.beqList : List Json → List Json → Bool
  | [], [] => true
  | x :: xs, y :: ys => Json.beq x y && Json.beqList xs ys
  | _, _ => false

/-- Pointwise equality of JSON objects (key and value, in order). -/
def Json.beqObj : List (String × Json) → List (String × Json) → Bool
  | [], [] => true
  | (k, v) :: xs, (l, w) :: ys => k == l && Json.beq v w && Json.beqObj xs ys
  | _, _ => false

end

/-- Python exceptions relevant to this code base.  Only `valueError`
(together with its subclass json.JSONDecodeError, embedded as the
`valueError` it is converted to) is caught by the `except ValueError`
handlers in the source. -/
inductive PyErr where
  | valueError (msg : String)
  | typeError (msg : String)
  | fileNotFoundError (msg : String)
  | attributeError (msg : String)
  | keyError (key : String)
deriving DecidableEq

/-- Text of an exception, as Python str(e) renders it. -/
def PyErr.text : PyErr → String
  | .valueError m => m
  | .typeError m => m
  | .fileNotFoundError m => m
  | .attributeError m => m
  | .keyError k => k

/-- Dictionary lookup on the association-list representation. -/
def pyLookup : List (String × Json) → String → Option Json
  | [], _ => none
  | (k, v) :: rest, key => if k == key then some v else pyLookup rest key

/-- Membership of a JSON value in a JSON array (Python `x in somelist`). -/
def jsonMem (x : Json) : List Json → Bool
  | [] => false
  | y :: ys => Json.beq y x || jsonMem x ys

/-- Does the first character list start with the second one. -/
def charsStartWith : List Char → List Char → Bool
  | _, [] => true
  | [], _ :: _ => false
  | a :: xs, b :: ys => a == b && charsStartWith xs ys

/-- Does the first character list contain the second as a contiguous run. -/
def charsContain : List Char → List Char → Bool
  | [], sub => sub.isEmpty
  | a :: rest, sub => charsStartWith (a :: rest) sub || charsContain rest sub

/-- Python substring test `sub in s` for strings. -/
def strContains (s sub : String) : Bool :=
  charsContain s.toList sub.toList

/-- Python `key in container` for a string key: key membership for dicts,
element membership for lists, substring test for strings, and a TypeError
for non-iterable values. -/
def pyContains (container : Json) (key : String) : Except PyErr Bool :=
  match container with
  | .obj kvs => .ok (pyLookup kvs key).isSome
  | .arr items => .ok (jsonMem (.str key) items)
  | .str s => .ok (strContains s key)
  | other =>
      .error (.typeError ("argument of type " ++ other.typeName ++ " is not iterable"))

/-- Python `container[key]` for a string key. -/
def pyGetItem (container : Json) (key : String) : Except PyErr Json :=
  match container with
  | .obj kvs =>
      match pyLookup kvs key with
      | some v => .ok v
      | none => .error (.keyError key)
  | .str _ => .error (.typeError "string indices must be integers")
  | .arr _ => .error (.typeError "list indices must be integers or slices, not str")
  | other => .error (.typeError (other.typeName ++ " object is not subscriptable"))

/-- Python `value in container` for an arbitrary JSON value on the left. -/
def pyInJson (x : Json) (container : Json) : Except PyErr Bool :=
  match container with
  | .arr items => .ok (jsonMem x items)
  | .obj kvs =>
      match x with
      | .str s => .ok (pyLookup kvs s).isSome
      | other => .error (.typeError ("unhashable type: " ++ other.typeName))
  | .str s =>
      match x with
      | .str sub => .ok (strContains s sub)
      | other =>
          .error (.typeError ("in <string> requires string as left operand, not " ++ other.typeName))
  | other =>
      .error (.typeError ("argument of type " ++ other.typeName ++ " is not iterable"))

/-- Python `list(value.keys())`: the key list of a dict, an AttributeError
on anything else. -/
def pyKeys (value : Json) : Except PyErr (List String) :=
  match value with
  | .obj kvs => .ok (kvs.map Prod.fst)
  | other => .error (.attributeError (other.typeName ++ " object has no attribute keys"))

mutual

/-- Rendering of a JSON value inside a Python error message (repr-like;
string quoting elided, see the file header). -/
def pyRender : Json → String
  | .str s => s
  | .num n => toString n
  | .bool b => if b then "True" else "False"
  | .null => "None"
  | .arr items => "[" ++ pyRenderList items ++ "]"
  | .obj fields => "\x7b" ++ pyRenderObj fields ++ "\x7d"

/-- Rendering of array elements, comma separated. -/
def pyRenderList : List Json → String
  | [] => ""
  | [x] => pyRender x
  | x :: xs => pyRender x ++ ", " ++ pyRenderList xs

/-- Rendering of object fields, comma separated. -/
def pyRenderObj : List (String × Json) → String
  | [] => ""
  | [(k, v)] => k ++ ": " ++ pyRender v
  | (k, v) :: xs => k ++ ": " ++ pyRender v ++ ", " ++ pyRenderObj xs

end

/-- Rendering of `list(d.keys())` inside an error message. -/
def renderKeys (keys : List String) : String :=
  "[" ++ String.intercalate ", " keys ++ "]"

/-- Python str.strip() whitespace test (default strip set). -/
def pyIsSpace (c : Char) : Bool :=
  c == ' ' || c == '\t' || c == '\n' || c == '\r' || c == '\x0b' || c == '\x0c'

/-- Python str.strip(): drop whitespace from both ends. -/
def pyStrip (s : String) : String :=
  String.mk (((s.toList.dropWhile pyIsSpace).reverse.dropWhile pyIsSpace).reverse)

/-- Python range(a, b) as a list. -/
def pyRange (a b : Nat) : List Nat :=
  (List.range (b - a)).map (a + ·)

/-! ## quiz_app/services/quiz_generation_service.py -/

/-- Outcome of one Gemini call composed with the code-fence cleanup and
json.loads: either the decoder fails (malformed JSON, with the decoder
message) or it yields a JSON value.  The external call and the textual
decoding are the only parts not re-modelled character by character; the
source feeds the cleaned response text straight into json.loads. -/
inductive GenResponse where
  | malformed (decodeError : String)
  | value (v : Json)

/-- The prompt template QUIZ_PROMPT of the source, verbatim (braces of the
placeholder written as escapes). -/
def QUIZ_PROMPT : String :=
  "\nErstellen anhand der folgenden Transkription eines YouTube-Videos ein Quiz mit genau 10 Multiple-Choice-Fragen.\n\nJede Frage muss genau 4 Antwortmöglichkeiten mit genau einer richtigen Antwort enthalten.\n\nWICHTIG: Gebe NUR ein gültiges JSON-Array ohne zusätzlichen Text, ohne Markdown und ohne Code-Fences zurück.\nJedes Objekt im Array muss genau diese Schlüssel enthalten:\n- „question_title”: Der Fragetext\n- „question_options”: Ein Array mit genau 4 Antwortoptionen als Zeichenketten\n- „answer”: Der vollständige Text der richtigen Antwort (muss exakt mit einem der Einträge in „question_options” übereinstimmen)\n\nBeispielformat:\n[\n    \x7b\n        „question_title”: „Was ist das Hauptthema der Diskussion?”,\n        „question_options”: [\n            „Text Option 1”,\n            „Text Option 2”,\n            „Text Option 3”,\n            „Text Option 4”\n        ],\n        „answer”: „Text Option 1”\n    \x7d\n]\n\nHier ist das Transkript:\n\n\x7btranscript\x7d"

/-- Source `_ensure_api_key`: raises ValueError when settings.GEMINI_API_KEY
is falsy.  The configuration is the Boolean parameter. -/
def _ensure_api_key (key_configured : Bool) : Except PyErr Unit :=
  if key_configured then .ok ()
  else .error (.valueError "GEMINI_API_KEY is not configured. Please add it to your .env file.")

/-- Source `_build_prompt`: replace the placeholder by the transcript. -/
def _build_prompt (transcript : String) : String :=
  QUIZ_PROMPT.replace "\x7btranscript\x7d" transcript

/-- Source `_parse_questions` applied to the decoded response: a decode
failure becomes a ValueError (json.JSONDecodeError is a ValueError
subclass and is re-raised as the wrapped ValueError), a decoded value
must be an array. -/
def _parse_questions : GenResponse → Except PyErr (List Json)
  | .malformed e => .error (.valueError ("Could not parse quiz from AI response: " ++ e))
  | .value v =>
      match v with
      | .arr items => .ok items
      | _ => .error (.valueError "Gemini response is not a JSON array.")

/-- Source `_trim_and_validate`: truncate to at most 10 questions.  There is
no lower bound check. -/
def _trim_and_validate (questions : List Json) : List Json :=
  if questions.length > 10 then questions.take 10 else questions

/-- The required-key tuple of `_validate_required_keys`. -/
def requiredKeys : List String := ["question_title", "question_options", "answer"]

/-- Python `all(key in question for key in keys)`: short-circuiting, and a
TypeError from `in` propagates. -/
def pyAllContains (question : Json) : List String → Except PyErr Bool
  | [] => .ok true
  | k :: rest =>
      match pyContains question k with
      | .error e => .error e
      | .ok true => pyAllContains question rest
      | .ok false => .ok false

/-- Source `_validate_required_keys`: ValueError when a required key is
absent; the message formats `list(question.keys())`. -/
def _validate_required_keys (question : Json) (index : Nat) : Except PyErr Unit :=
  match pyAllContains question requiredKeys with
  | .error e => .error e
  | .ok true => .ok ()
  | .ok false =>
      match pyKeys question with
      | .error e => .error e
      | .ok keys =>
          .error (.valueError ("Question " ++ toString index ++ " is missing required fields. Got keys: " ++ renderKeys keys))

/-- Source `_validate_options`: the question_options item must be a
list with exactly 4 items, else ValueError. -/
def _validate_options (question : Json) (index : Nat) : Except PyErr Unit :=
  match pyGetItem question "question_options" with
  | .error e => .error e
  | .ok options =>
      if (match options with | .arr items => items.length == 4 | _ => false) then .ok ()
      else .error (.valueError ("Question " ++ toString index ++ " must have exactly 4 answer options as a list. Got: " ++ pyRender options))

/-- Source `_validate_answer`: the answer must be a member of the options. -/
def _validate_answer (question : Json) (index : Nat) : Except PyErr Unit :=
  match pyGetItem question "answer" with
  | .error e => .error e
  | .ok answer =>
      match pyGetItem question "question_options" with
      | .error e => .error e
      | .ok options =>
          match pyInJson answer options with
          | .error e => .error e
          | .ok true => .ok ()
          | .ok false =>
              .error (.valueError ("Question " ++ toString index ++ " has invalid answer: " ++ pyRender answer ++ ". Answer must match one of the question_options."))

/-- Source `_validate_question_structure`: the three checks in order. -/
def _validate_question_structure (question : Json) (index : Nat) : Except PyErr Unit :=
  match _validate_required_keys question index with
  | .error e => .error e
  | .ok _ =>
      match _validate_options question index with
      | .error e => .error e
      | .ok _ => _validate_answer question index

/-- The enumerate loop of `generate_quiz_questions`, carrying the 1-based
index. -/
def validateAllFrom : List Json → Nat → Except PyErr Unit
  | [], _ => .ok ()
  | q :: rest, index =>
      match _validate_question_structure q index with
      | .error e => .error e
      | .ok _ => validateAllFrom rest (index + 1)

/-- Source `generate_quiz_questions`: validate every question (1-based
index) and return the list unchanged. -/
def generate_quiz_questions (questions : List Json) : Except PyErr (List Json) :=
  match validateAllFrom questions 1 with
  | .ok _ => .ok questions
  | .error e => .error e

/-- Source MAX_RETRIES. -/
def MAX_RETRIES : Nat := 3

/-- Source `_fetch_and_validate`: one attempt.  The Gemini call is the
parameter `gem`, indexed by the prompt and the attempt number so that
distinct attempts may observe distinct external responses. -/
def _fetch_and_validate (gem : String → Nat → GenResponse) (prompt : String) (attempt : Nat) :
    Except PyErr (List Json) :=
  match _parse_questions (gem prompt attempt) with
  | .error e => .error e
  | .ok parsed =>
      let questions := _trim_and_validate parsed
      match generate_quiz_questions questions with
      | .error e => .error e
      | .ok _ => .ok questions

/-- The retry loop of `generate_quiz` over the remaining attempt numbers of
range(1, MAX_RETRIES + 1).  Only ValueError is caught; at the last attempt
the error is re-raised with the aggregated message.  If the loop were to
complete, Python would return None: that is the `.ok none` of the empty
case (unreachable from `generate_quiz`, where the last attempt either
returns or raises). -/
def generate_quiz_attempts (gem : String → Nat → GenResponse) (prompt : String) :
    List Nat → Except PyErr (Option (List Json))
  | [] => .ok none
  | attempt :: rest =>
      match _fetch_and_validate gem prompt attempt with
      | .ok questions => .ok (some questions)
      | .error (.valueError e) =>
          if attempt == MAX_RETRIES then
            .error (.valueError ("Quiz generation failed after " ++ toString MAX_RETRIES ++ " attempts. Last error: " ++ e))
          else
            generate_quiz_attempts gem prompt rest
      | .error e => .error e

/-- Source `generate_quiz`: key check, prompt building, then the bounded
retry loop.  `some questions` is a normal return, `none` the (unreachable)
implicit None of a completed loop. -/
def generate_quiz (key_configured : Bool) (gem : String → Nat → GenResponse)
    (transcript : String) : Except PyErr (Option (List Json)) :=
  match _ensure_api_key key_configured with
  | .error e => .error e
  | .ok _ =>
      let prompt := _build_prompt transcript
      generate_quiz_attempts gem prompt (pyRange 1 (MAX_RETRIES + 1))

/-! ## quiz_app/services/transcription_service.py -/

/-- Result of one `transcribe_audio` call: the set of paths existing after
the call, the number of os.remove invocations it performed, and the
returned transcript or the raised exception. -/
structure TranscribeResult where
  fs : List String
  removes : Nat
  outcome : Except PyErr String

/-- Python result.get of the text key (default empty) followed by strip: the whisper
result should be a dict whose text entry is a string; any other shape
raises (an AttributeError), which the source catches below. -/
def whisperText (result : Json) : Except PyErr String :=
  match result with
  | .obj kvs =>
      match (pyLookup kvs "text").getD (Json.str "") with
      | .str s => .ok (pyStrip s)
      | other => .error (.attributeError (other.typeName ++ " object has no attribute strip"))
  | other => .error (.attributeError (other.typeName ++ " object has no attribute get"))

/-- Source `transcribe_audio`.  The filesystem is the list of existing
paths; the Whisper model call (including the lazy `_get_model` load) is the
parameter `whisper`, yielding the result dict or raising.  The function
first checks existence (raising FileNotFoundError, outside the try block),
then runs the try/except/finally of the source: every exception of the
body is re-raised as a ValueError, and the finally block removes the audio
file when it still exists. -/
def transcribe_audio (fs : List String) (audio_path : String)
    (whisper : Except PyErr Json) : TranscribeResult :=
  if audio_path ∈ fs then
    let body : Except PyErr String :=
      match whisper with
      | .error e => .error e
      | .ok result =>
          match whisperText result with
          | .error e => .error e
          | .ok transcript =>
              if transcript == "" then
                .error (.valueError "Transcription returned empty text.")
              else
                .ok transcript
    let outcome : Except PyErr String :=
      match body with
      | .ok t => .ok t
      | .error e => .error (.valueError ("Failed to transcribe audio: " ++ e.text))
    -- finally: if os.path.exists(audio_path): os.remove(audio_path)
    if audio_path ∈ fs then
      { fs := fs.filter (· ≠ audio_path), removes := 1, outcome := outcome }
    else
      { fs := fs, removes := 0, outcome := outcome }
  else
    { fs := fs, removes := 0,
      outcome := .error (.fileNotFoundError ("Audio file not found: " ++ audio_path)) }

/-! ## quiz_app/models.py and the persistence model -/

/-- The three lifecycle statuses of Quiz.Status (models.py). -/
def QuizStatusChoices : List String := ["processing", "completed", "failed"]

/-- The model default of the status field (models.py). -/
def QuizStatusDefault : String := "processing"

/-- Quiz.Status.COMPLETED. -/
def QuizStatusCompleted : String := "completed"

/-- A persisted Quiz row (ids modelled as the autoincrement position). -/
structure QuizRow where
  id : Nat
  user : Nat
  title : String
  description : String
  video_url : String
  transcript : String
  status : String
deriving DecidableEq

/-- A persisted Question row. -/
structure QuestionRow where
  quiz : Nat
  question_title : Json
  question_options : Json
  answer : Json

/-- The database: quiz rows and question rows, in insertion order. -/
structure DB where
  quizzes : List QuizRow
  questions : List QuestionRow

/-- The keyword arguments the Question model constructor accepts from `**q`
besides the positionally given quiz ("quiz" itself would be a duplicate
keyword and is rejected like an unknown one). -/
def questionKwargOk (k : String) : Bool :=
  k ∈ ["id", "question_title", "question_options", "answer", "created_at", "updated_at", "quiz_id"]

/-- Python `Question(quiz=quiz, **q)` (views.py `_save_quiz`): a TypeError
when `q` is not a dict or carries a keyword the model does not accept.
Records reaching this point passed validation, so the three content keys
are present; an absent key (unreachable here) is modelled as null. -/
def mkQuestion (quizId : Nat) (q : Json) : Except PyErr QuestionRow :=
  match q with
  | .obj kvs =>
      match (kvs.map Prod.fst).find? (fun k => !questionKwargOk k) with
      | some bad =>
          .error (.typeError (bad ++ " is an invalid keyword argument for Question"))
      | none =>
          .ok { quiz := quizId,
                question_title := (pyLookup kvs "question_title").getD Json.null,
                question_options := (pyLookup kvs "question_options").getD Json.null,
                answer := (pyLookup kvs "answer").getD Json.null }
  | other => .error (.typeError (other.typeName ++ " argument after ** must be a mapping"))

/-- The list comprehension building the Question objects, left to right;
the first raised exception propagates. -/
def mkQuestions (quizId : Nat) : List Json → Except PyErr (List QuestionRow)
  | [] => .ok []
  | q :: rest =>
      match mkQuestion quizId q with
      | .error e => .error e
      | .ok row =>
          match mkQuestions quizId rest with
          | .error e => .error e
          | .ok rows => .ok (row :: rows)

/-! ## quiz_app/api/views.py -/

/-- Source `_save_quiz`.  Django runs in autocommit and the source uses no
transaction: `Quiz.objects.create` commits the quiz row before the
Question objects are built and bulk_created, so a failure while persisting
the questions leaves the quiz row in the database.  Returns the final
database state and the created quiz or the raised exception. -/
def _save_quiz (db : DB) (user : Nat) (title video_url transcript : String)
    (questions_data : Option (List Json)) : DB × Except PyErr QuizRow :=
  let quiz : QuizRow :=
    { id := db.quizzes.length + 1, user := user, title := title,
      description := "", video_url := video_url, transcript := transcript,
      status := QuizStatusCompleted }
  let db1 : DB := { db with quizzes := db.quizzes ++ [quiz] }
  match questions_data with
  | none =>
      -- for q in None: TypeError (generate_quiz fell through, returning None)
      (db1, .error (.typeError "NoneType object is not iterable"))
  | some qs =>
      match mkQuestions quiz.id qs with
      | .error e => (db1, .error e)
      | .ok rows => ({ db1 with questions := db1.questions ++ rows }, .ok quiz)

/-- Result of `download_audio` (youtube_service.py) on success. -/
structure DownloadResult where
  audio_path : String
  title : String
deriving DecidableEq

/-- The three stage calls `_run_pipeline` makes, as outcome parameters:
the download outcome, the transcription outcome per audio path, and the
generation outcome per transcript. -/
structure PipelineStages where
  download_audio : Except PyErr DownloadResult
  transcribe_audio : String → Except PyErr String
  generate_quiz : String → Except PyErr (Option (List Json))

/-- Source `_run_pipeline`: download, transcribe, generate, save; any raise
short-circuits. -/
def _run_pipeline (db : DB) (st : PipelineStages) (user : Nat) (video_url : String) :
    DB × Except PyErr QuizRow :=
  match st.download_audio with
  | .error e => (db, .error e)
  | .ok result =>
      match st.transcribe_audio result.audio_path with
      | .error e => (db, .error e)
      | .ok transcript =>
          match st.generate_quiz transcript with
          | .error e => (db, .error e)
          | .ok questions_data =>
              _save_quiz db user result.title video_url transcript questions_data

/-- The response of the create endpoint: 201 with the quiz, 400 with a
detail string, or an exception that escaped the `except ValueError`
handler. -/
inductive HttpResponse where
  | created201 (quiz : QuizRow)
  | badRequest400 (detail : String)
  | uncaught (e : PyErr)
deriving DecidableEq

/-- Source `QuizListCreateView.create` after serializer validation: run the
pipeline, turn a ValueError into a 400 whose detail is str(e), anything
else propagates. -/
def create (db : DB) (st : PipelineStages) (user : Nat) (video_url : String) :
    DB × HttpResponse :=
  match _run_pipeline db st user video_url with
  | (db2, .ok quiz) => (db2, .created201 quiz)
  | (db2, .error (.valueError m)) => (db2, .badRequest400 m)
  | (db2, .error e) => (db2, .uncaught e)

/-- Stage bundle whose generation stage is the modelled `generate_quiz`
itself. -/
def mkStages (dl : Except PyErr DownloadResult) (tr : String → Except PyErr String)
    (key_configured : Bool) (gem : String → Nat → GenResponse) : PipelineStages :=
  { download_audio := dl, transcribe_audio := tr,
    generate_quiz := fun transcript => generate_quiz key_configured gem transcript }

/-! ## sanity_check.py -/

/-- Python `d.items()`: the field list of a dict, an AttributeError on
anything else (in particular on a list). -/
def pyItems (value : Json) : Except PyErr (List (String × Json)) :=
  match value with
  | .obj kvs => .ok kvs
  | other => .error (.attributeError (other.typeName ++ " object has no attribute items"))

/-- Python str() of a JSON value for printing. -/
def pyStr (v : Json) : String :=
  match v with
  | .str s => s
  | other => pyRender other

/-- The question-printing loop of `run` in sanity_check.py, with the
1-based enumerate counter: prints the title, then iterates
items() of the question_options item, then prints the answer. -/
def sanityPrintQuestions : List Json → Nat → Except PyErr (List String)
  | [], _ => .ok []
  | q :: rest, i =>
      match pyGetItem q "question_title" with
      | .error e => .error e
      | .ok title =>
          let titleLine := "  Frage " ++ toString i ++ ": " ++ pyStr title
          match pyGetItem q "question_options" with
          | .error e => .error e
          | .ok options =>
              match pyItems options with
              | .error e => .error e
              | .ok pairs =>
                  let optionLines := pairs.map (fun kv => "    " ++ kv.fst ++ ": " ++ pyStr kv.snd)
                  match pyGetItem q "answer" with
                  | .error e => .error e
                  | .ok answer =>
                      let answerLine := "    Richtige Antwort: " ++ pyStr answer
                      match sanityPrintQuestions rest (i + 1) with
                      | .error e => .error e
                      | .ok restLines =>
                          .ok ([titleLine] ++ optionLines ++ [answerLine] ++ restLines)

/-- Source `run` of sanity_check.py: the three stages with progress output;
any stage exception propagates uncaught.  Returns the printed lines. -/
def sanity_run (dl : Except PyErr DownloadResult) (tr : String → Except PyErr String)
    (gen : String → Except PyErr (Option (List Json))) (video_url : String) :
    Except PyErr (List String) :=
  let line1 := "[1/3] Downloading audio from: " ++ video_url
  match dl with
  | .error e => .error e
  | .ok result =>
      let dlLines := [line1, "  Title: " ++ result.title, "  Audio: " ++ result.audio_path]
      let line2 := "[2/3] Transcribing audio (this may take a moment)..."
      match tr result.audio_path with
      | .error e => .error e
      | .ok transcript =>
          let trLines := [line2,
            "  Transcript length: " ++ toString transcript.length ++ " characters",
            "  Preview: " ++ transcript.take 200 ++ "..."]
          let line3 := "[3/3] Generating quiz via Gemini..."
          match gen transcript with
          | .error e => .error e
          | .ok none => .error (.typeError "object of type NoneType has no len()")
          | .ok (some qs) =>
              let headLine := "  Quiz generated with " ++ toString qs.length ++ " questions:"
              match sanityPrintQuestions qs 1 with
              | .error e => .error e
              | .ok qLines =>
                  .ok (dlLines ++ trLines ++ [line3, headLine] ++ qLines ++ ["Pipeline completed successfully!"])

/-- Outcome of the module entry of sanity_check.py: a usage message with
exit status 1, or the outcome of `run`. -/
inductive SanityMain where
  | usageExit (printed : String) (code : Nat)
  | ran (outcome : Except PyErr (List String))

/-- The `if len(sys.argv) != 2` entry block of sanity_check.py. -/
def sanity_main (argv : List String) (dl : Except PyErr DownloadResult)
    (tr : String → Except PyErr String)
    (gen : String → Except PyErr (Option (List Json))) : SanityMain :=
  if argv.length ≠ 2 then
    .usageExit "Usage: python sanity_check.py <youtube_url>" 1
  else
    .ran (sanity_run dl tr gen (argv.getD 1 ""))

/-! ## Spec-side predicates and concrete inputs -/

/-- Is the value a JSON array. -/
def Json.isArr : Json → Bool
  | .arr _ => true
  | _ => false

/-- A schema-valid question record in the sense of the spec: the three
required keys are present, the options container is a list with exactly 4
entries, and the answer is a member of the options. -/
def recordValid (q : Json) : Bool :=
  match q with
  | .obj kvs =>
      match pyLookup kvs "question_title", pyLookup kvs "question_options",
            pyLookup kvs "answer" with
      | some _, some (.arr opts), some ans => opts.length == 4 && jsonMem ans opts
      | _, _, _ => false
  | _ => false

/-- The record uses the positional options encoding: `question_options` is
a 4-element list. -/
def positionalOptions4 (q : Json) : Bool :=
  match q with
  | .obj kvs =>
      match pyLookup kvs "question_options" with
      | some (.arr opts) => opts.length == 4
      | _ => false
  | _ => false

/-- A schema-valid question record in the positional encoding. -/
def sampleRecord : Json :=
  .obj [("question_title", .str "q"),
        ("question_options", .arr [.str "a", .str "b", .str "c", .str "d"]),
        ("answer", .str "a")]

/-- Ten schema-valid records. -/
def sampleRecords10 : List Json := List.replicate 10 sampleRecord

/-- Seven schema-valid records: a short but otherwise valid response. -/
def sampleRecords7 : List Json := List.replicate 7 sampleRecord

/-- A schema-valid record carrying one extra key, which validation accepts
but the Question model constructor rejects. -/
def sampleRecordExtraKey : Json :=
  .obj [("question_title", .str "q"),
        ("question_options", .arr [.str "a", .str "b", .str "c", .str "d"]),
        ("answer", .str "a"),
        ("explanation", .str "because")]

/-- A record in the keyed options encoding (options as a letter-keyed
object, answer a letter). -/
def keyedRecordFields : List (String × Json) :=
  [("question_title", .str "q"),
   ("question_options", .obj [("A", .str "a1"), ("B", .str "a2"), ("C", .str "a3"), ("D", .str "a4")]),
   ("answer", .str "A")]

/-- Gemini returning the ten valid records on every attempt. -/
def gemSample10 : String → Nat → GenResponse := fun _ _ => .value (.arr sampleRecords10)

/-- Gemini returning seven valid records on every attempt. -/
def gemSample7 : String → Nat → GenResponse := fun _ _ => .value (.arr sampleRecords7)

/-- Gemini returning ten extra-key records on every attempt. -/
def gemExtraKey : String → Nat → GenResponse :=
  fun _ _ => .value (.arr (List.replicate 10 sampleRecordExtraKey))

/-- Gemini returning undecodable text on every attempt. -/
def gemMalformed : String → Nat → GenResponse :=
  fun _ _ => .malformed "Expecting value: line 1 column 1 (char 0)"

/-- Gemini returning an array whose sole element is a string containing the
three required key names as substrings on the first attempt, and the ten
valid records on every later attempt (so a retry would succeed). -/
def gemStringElement : String → Nat → GenResponse := fun _ attempt =>
  if attempt == 1 then .value (.arr [.str "question_title question_options answer"])
  else .value (.arr sampleRecords10)

/-- The empty database. -/
def db0 : DB := { quizzes := [], questions := [] }

/-- A successful download outcome. -/
def dl0 : Except PyErr DownloadResult := .ok { audio_path := "/tmp/audio.mp3", title := "T" }

/-- A transcription stage returning the transcript S for any path. -/
def tr0 : String → Except PyErr String := fun _ => .ok "S"

/-- The transcription stage as the modelled `transcribe_audio` run on a
filesystem that does not hold the audio file: it raises
FileNotFoundError. -/
def trMissingFile : String → Except PyErr String :=
  fun p => (transcribe_audio [] p (.ok Json.null)).outcome

/-- The quiz row the sample pipeline run persists. -/
def quizRow0 : QuizRow :=
  { id := 1, user := 1, title := "T", description := "", video_url := "u",
    transcript := "S", status := "completed" }

/-- Database state after the successful sample run with ten records. -/
def dbAfter10 : DB := (create db0 (mkStages dl0 tr0 true gemSample10) 1 "u").1

/-- Database state after the save with ten extra-key records fails while
building the Question objects. -/
def dbAfterExtraKeySave : DB :=
  (_save_quiz db0 1 "T" "u" "S" (some (List.replicate 10 sampleRecordExtraKey))).1

/-- The quiz row `_save_quiz` builds and commits (status completed, empty
description, id the next autoincrement position). -/
def savedQuizRow (db : DB) (user : Nat) (title url transcript : String) : QuizRow :=
  { id := db.quizzes.length + 1, user := user, title := title, description := "",
    video_url := url, transcript := transcript, status := QuizStatusCompleted }

/-! ## Helper lemmas -/

/-- Truncation bounds the question list by 10. -/
theorem trim_length_le (l : List Json) : (_trim_and_validate l).length ≤ 10 := by
  unfold _trim_and_validate
  split
  · simp
  · omega

/-- The attempt numbers of the retry loop are 1, 2, 3. -/
theorem pyRange_attempts : pyRange 1 (MAX_RETRIES + 1) = [1, 2, 3] := by
  decide

/-- A schema-valid record passes `_validate_question_structure` at every
index. -/
theorem validate_of_recordValid (q : Json) (hq : recordValid q = true) (i : Nat) :
    _validate_question_structure q i = .ok () := by
  cases q with
  | obj kvs =>
    simp only [recordValid] at hq
    cases h1 : pyLookup kvs "question_title" with
    | none => rw [h1] at hq; cases h2 : pyLookup kvs "question_options" <;> simp [h2] at hq
    | some t =>
      cases h2 : pyLookup kvs "question_options" with
      | none => rw [h1, h2] at hq; simp at hq
      | some v =>
        cases h3 : pyLookup kvs "answer" with
        | none =>
          rw [h1, h2, h3] at hq
          cases v <;> simp at hq
        | some ans =>
          rw [h1, h2, h3] at hq
          cases v with
          | arr opts =>
            simp only [Bool.and_eq_true, beq_iff_eq] at hq
            obtain ⟨hlen, hmem⟩ := hq
            have hreq : _validate_required_keys (.obj kvs) i = .ok () := by
              simp [_validate_required_keys, pyAllContains, requiredKeys, pyContains,
                h1, h2, h3]
            have hopt : _validate_options (.obj kvs) i = .ok () := by
              simp [_validate_options, pyGetItem, h2, hlen]
            have hans : _validate_answer (.obj kvs) i = .ok () := by
              simp [_validate_answer, pyGetItem, h2, h3, pyInJson, hmem]
            simp [_validate_question_structure, hreq, hopt, hans]
          | str s => simp at hq
          | num n => simp at hq
          | bool b => simp at hq
          | null => simp at hq
          | obj fields => simp at hq
  | str s => simp [recordValid] at hq
  | num n => simp [recordValid] at hq
  | bool b => simp [recordValid] at hq
  | null => simp [recordValid] at hq
  | arr items => simp [recordValid] at hq

/-- A list of schema-valid records passes the validation loop from any
starting index. -/
theorem validateAllFrom_of_valid (qs : List Json)
    (h : ∀ q ∈ qs, recordValid q = true) : ∀ i, validateAllFrom qs i = .ok () := by
  induction qs with
  | nil => intro i; rfl
  | cons q rest ih =>
    intro i
    have hq := h q (List.mem_cons_self q rest)
    have hrest : ∀ q ∈ rest, recordValid q = true :=
      fun r hr => h r (List.mem_cons_of_mem q hr)
    simp [validateAllFrom, validate_of_recordValid q hq i, ih hrest]

/-- A successful attempt yields the trimmed list, which is at most 10 long
and passes the validation loop. -/
theorem fetch_ok_dest (gem : String → Nat → GenResponse) (p : String) (a : Nat)
    (qs : List Json) (h : _fetch_and_validate gem p a = .ok qs) :
    qs.length ≤ 10 ∧ validateAllFrom qs 1 = .ok () := by
  unfold _fetch_and_validate at h
  cases hp : _parse_questions (gem p a) with
  | error e => rw [hp] at h; exact absurd h (by simp)
  | ok parsed =>
    rw [hp] at h
    simp only [generate_quiz_questions] at h
    cases hv : validateAllFrom (_trim_and_validate parsed) 1 with
    | error e => rw [hv] at h; exact absurd h (by simp)
    | ok u =>
      rw [hv] at h
      simp only [Except.ok.injEq] at h
      subst h
      exact ⟨trim_length_le parsed, by rw [hv]⟩

/-- A successful retry loop comes from a successful attempt. -/
theorem attempts_ok_dest (gem : String → Nat → GenResponse) (p : String)
    (attempts : List Nat) (qs : List Json)
    (h : generate_quiz_attempts gem p attempts = .ok (some qs)) :
    ∃ a, _fetch_and_validate gem p a = .ok qs := by
  induction attempts with
  | nil => exact absurd h (by simp [generate_quiz_attempts])
  | cons a rest ih =>
    unfold generate_quiz_attempts at h
    cases hf : _fetch_and_validate gem p a with
    | ok questions =>
      simp only [hf, Except.ok.injEq, Option.some.injEq] at h
      exact ⟨a, by rw [hf, h]⟩
    | error e =>
      rw [hf] at h
      cases e with
      | valueError m =>
        have h2 : (if (a == MAX_RETRIES) = true then
            (Except.error (PyErr.valueError ("Quiz generation failed after " ++ toString MAX_RETRIES ++ " attempts. Last error: " ++ m)) : Except PyErr (Option (List Json)))
          else generate_quiz_attempts gem p rest) = .ok (some qs) := h
        by_cases hlast : (a == MAX_RETRIES) = true
        · rw [if_pos hlast] at h2; simp at h2
        · rw [if_neg hlast] at h2; exact ih h2
      | typeError m => simp at h
      | fileNotFoundError m => simp at h
      | attributeError m => simp at h
      | keyError k => simp at h

/-- A successful `generate_quiz` run returns the validated, trimmed list of
some attempt: at most 10 records, each passing the structure validation. -/
theorem generate_ok_dest (key : Bool) (gem : String → Nat → GenResponse)
    (transcript : String) (qs : List Json)
    (h : generate_quiz key gem transcript = .ok (some qs)) :
    qs.length ≤ 10 ∧ validateAllFrom qs 1 = .ok () := by
  unfold generate_quiz at h
  cases key with
  | false => exact absurd h (by simp [_ensure_api_key])
  | true =>
    simp only [_ensure_api_key, if_pos] at h
    obtain ⟨a, ha⟩ := attempts_ok_dest gem _ _ qs h
    exact fetch_ok_dest gem _ a qs ha

/-- Every record of a list passing the validation loop passes the
structure validation at its own index. -/
theorem validateAllFrom_mem (qs : List Json) :
    ∀ i, validateAllFrom qs i = .ok () →
    ∀ q ∈ qs, ∃ j, _validate_question_structure q j = .ok () := by
  induction qs with
  | nil => intro i _ q hq; exact absurd hq (by simp)
  | cons q rest ih =>
    intro i h r hr
    unfold validateAllFrom at h
    cases hv : _validate_question_structure q i with
    | error e => rw [hv] at h; exact absurd h (by simp)
    | ok u =>
      rw [hv] at h
      rcases List.mem_cons.mp hr with heq | hmem
      · subst heq; exact ⟨i, by rw [hv]⟩
      · exact ih (i + 1) h r hmem

/-- A successful string-keyed item access happens on an object and returns
the looked-up binding. -/
theorem pyGetItem_ok_dest (q : Json) (key : String) (v : Json)
    (h : pyGetItem q key = .ok v) : ∃ kvs, q = .obj kvs ∧ pyLookup kvs key = some v := by
  cases q with
  | obj kvs =>
    refine ⟨kvs, rfl, ?_⟩
    simp only [pyGetItem] at h
    cases hl : pyLookup kvs key with
    | none => simp [hl] at h
    | some w => simp only [hl, Except.ok.injEq] at h; rw [h]
  | str s => simp [pyGetItem] at h
  | num n => simp [pyGetItem] at h
  | bool b => simp [pyGetItem] at h
  | null => simp [pyGetItem] at h
  | arr items => simp [pyGetItem] at h

/-- A record passing the structure validation is an object whose
`question_options` is a 4-element list (the positional encoding). -/
theorem validated_positional (q : Json) (j : Nat)
    (h : _validate_question_structure q j = .ok ()) :
    positionalOptions4 q = true := by
  unfold _validate_question_structure at h
  cases hr : _validate_required_keys q j with
  | error e => simp [hr] at h
  | ok u =>
    simp only [hr] at h
    cases ho : _validate_options q j with
    | error e => simp [ho] at h
    | ok v =>
      unfold _validate_options at ho
      cases hget : pyGetItem q "question_options" with
      | error e => simp [hget] at ho
      | ok options =>
        simp only [hget] at ho
        obtain ⟨kvs, rfl, hl⟩ := pyGetItem_ok_dest q "question_options" options hget
        cases options with
        | arr opts =>
          by_cases h4 : (opts.length == 4) = true
          · simpa [positionalOptions4, hl] using h4
          · simp [h4] at ho
        | str s => simp at ho
        | num n => simp at ho
        | bool b => simp at ho
        | null => simp at ho
        | obj fields => simp at ho

/-- Question rows built from a record list: one row per record, each bound
to the given quiz id. -/
theorem mkQuestions_ok_dest (quizId : Nat) (qs : List Json) (rows : List QuestionRow)
    (h : mkQuestions quizId qs = .ok rows) :
    rows.length = qs.length ∧ ∀ r ∈ rows, r.quiz = quizId := by
  induction qs generalizing rows with
  | nil =>
    simp only [mkQuestions, Except.ok.injEq] at h
    subst h; simp
  | cons q rest ih =>
    unfold mkQuestions at h
    cases hq : mkQuestion quizId q with
    | error e => rw [hq] at h; exact absurd h (by simp)
    | ok row =>
      rw [hq] at h
      cases hrest : mkQuestions quizId rest with
      | error e => rw [hrest] at h; exact absurd h (by simp)
      | ok restRows =>
        rw [hrest] at h
        simp only [Except.ok.injEq] at h
        subst h
        obtain ⟨hlen, hall⟩ := ih restRows hrest
        have hrow : row.quiz = quizId := by
          unfold mkQuestion at hq
          cases q with
          | obj kvs =>
            cases hf : (kvs.map Prod.fst).find? (fun k => !questionKwargOk k) with
            | some bad => simp [hf] at hq
            | none =>
              simp only [hf, Except.ok.injEq] at hq
              subst hq; rfl
          | str s => simp at hq
          | num n => simp at hq
          | bool b => simp at hq
          | null => simp at hq
          | arr items => simp at hq
        constructor
        · simpa using hlen
        · intro r hr
          rcases List.mem_cons.mp hr with heq | hmem
          · subst heq; exact hrow
          · exact hall r hmem

/-- With the key configured, `generate_quiz` is the retry loop over the
attempts 1, 2, 3 on the built prompt. -/
theorem generate_quiz_unfold (gem : String → Nat → GenResponse) (t : String) :
    generate_quiz true gem t = generate_quiz_attempts gem (_build_prompt t) [1, 2, 3] := rfl

/-- A successful attempt ends the retry loop with its list. -/
theorem attempts_cons_ok (gem : String → Nat → GenResponse) (p : String) (a : Nat)
    (rest : List Nat) (qs : List Json) (hf : _fetch_and_validate gem p a = .ok qs) :
    generate_quiz_attempts gem p (a :: rest) = .ok (some qs) := by
  unfold generate_quiz_attempts
  rw [hf]

/-- A validation failure before the last attempt moves the loop on. -/
theorem attempts_cons_err_continue (gem : String → Nat → GenResponse) (p : String)
    (a : Nat) (rest : List Nat) (e : String)
    (hf : _fetch_and_validate gem p a = .error (.valueError e)) (hne : a ≠ MAX_RETRIES) :
    generate_quiz_attempts gem p (a :: rest) = generate_quiz_attempts gem p rest := by
  conv_lhs => unfold generate_quiz_attempts
  rw [hf]
  show (if (a == MAX_RETRIES) = true then _ else generate_quiz_attempts gem p rest) =
    generate_quiz_attempts gem p rest
  exact if_neg (by simp [hne])

/-- A validation failure at the last attempt raises the aggregated
message. -/
theorem attempts_last_err (gem : String → Nat → GenResponse) (p : String)
    (rest : List Nat) (e : String)
    (hf : _fetch_and_validate gem p MAX_RETRIES = .error (.valueError e)) :
    generate_quiz_attempts gem p (MAX_RETRIES :: rest) =
      .error (.valueError ("Quiz generation failed after 3 attempts. Last error: " ++ e)) := by
  conv_lhs => unfold generate_quiz_attempts
  rw [hf]
  rfl

/-- One attempt only depends on the response of that attempt. -/
theorem fetch_congr (gem gem2 : String → Nat → GenResponse) (p : String) (a : Nat)
    (hag : gem2 p a = gem p a) :
    _fetch_and_validate gem2 p a = _fetch_and_validate gem p a := by
  unfold _fetch_and_validate
  rw [hag]

/-- The retry loop only depends on the responses of its own attempt
numbers. -/
theorem attempts_congr (gem gem2 : String → Nat → GenResponse) (p : String)
    (attempts : List Nat) (hag : ∀ a ∈ attempts, gem2 p a = gem p a) :
    generate_quiz_attempts gem2 p attempts = generate_quiz_attempts gem p attempts := by
  induction attempts with
  | nil => rfl
  | cons a rest ih =>
    have hfa : _fetch_and_validate gem2 p a = _fetch_and_validate gem p a :=
      fetch_congr gem gem2 p a (hag a (List.mem_cons_self a rest))
    have hrest : generate_quiz_attempts gem2 p rest = generate_quiz_attempts gem p rest :=
      ih (fun b hb => hag b (List.mem_cons_of_mem a hb))
    unfold generate_quiz_attempts
    rw [hfa, hrest]

/-- A 201 response comes from a successful pipeline run. -/
theorem create_ok_dest (db : DB) (st : PipelineStages) (user : Nat) (url : String)
    (db2 : DB) (quiz : QuizRow)
    (h : create db st user url = (db2, .created201 quiz)) :
    _run_pipeline db st user url = (db2, .ok quiz) := by
  unfold create at h
  rcases hrp : _run_pipeline db st user url with ⟨db3, r⟩
  rw [hrp] at h
  cases r with
  | ok q =>
    have h2 : ((db3, HttpResponse.created201 q) : DB × HttpResponse) = (db2, .created201 quiz) := h
    simp only [Prod.mk.injEq, HttpResponse.created201.injEq] at h2
    rw [h2.1, h2.2]
  | error e =>
    cases e with
    | valueError m =>
      have h2 : ((db3, HttpResponse.badRequest400 m) : DB × HttpResponse) = (db2, .created201 quiz) := h
      simp at h2
    | typeError m =>
      have h2 : ((db3, HttpResponse.uncaught (.typeError m)) : DB × HttpResponse) = (db2, .created201 quiz) := h
      simp at h2
    | fileNotFoundError m =>
      have h2 : ((db3, HttpResponse.uncaught (.fileNotFoundError m)) : DB × HttpResponse) = (db2, .created201 quiz) := h
      simp at h2
    | attributeError m =>
      have h2 : ((db3, HttpResponse.uncaught (.attributeError m)) : DB × HttpResponse) = (db2, .created201 quiz) := h
      simp at h2
    | keyError k =>
      have h2 : ((db3, HttpResponse.uncaught (.keyError k)) : DB × HttpResponse) = (db2, .created201 quiz) := h
      simp at h2

/-- A successful pipeline run decomposes into successful stages followed by
the save. -/
theorem run_pipeline_ok_dest (db : DB) (st : PipelineStages) (user : Nat) (url : String)
    (db2 : DB) (quiz : QuizRow)
    (h : _run_pipeline db st user url = (db2, .ok quiz)) :
    ∃ res transcript qd, st.download_audio = .ok res ∧
      st.transcribe_audio res.audio_path = .ok transcript ∧
      st.generate_quiz transcript = .ok qd ∧
      _save_quiz db user res.title url transcript qd = (db2, .ok quiz) := by
  unfold _run_pipeline at h
  split at h
  · simp at h
  · split at h
    · simp at h
    · split at h
      · simp at h
      · rename_i x1 res hdl x2 transcript htr x3 qd hgen
        exact ⟨res, transcript, qd, hdl, htr, hgen, h⟩

/-- A successful save decomposes: a record list was given, every record
became a row, the quiz row is appended and the rows are appended. -/
theorem save_quiz_ok_dest (db : DB) (user : Nat) (title url transcript : String)
    (qd : Option (List Json)) (db2 : DB) (quiz : QuizRow)
    (h : _save_quiz db user title url transcript qd = (db2, .ok quiz)) :
    ∃ qs rows, qd = some qs ∧ mkQuestions (db.quizzes.length + 1) qs = .ok rows ∧
      quiz = savedQuizRow db user title url transcript ∧
      db2.quizzes = db.quizzes ++ [quiz] ∧ db2.questions = db.questions ++ rows := by
  unfold _save_quiz at h
  dsimp only [] at h
  split at h
  · simp at h
  · rename_i qs
    split at h
    · simp at h
    · rename_i rows hmk
      simp only [Prod.mk.injEq, Except.ok.injEq] at h
      obtain ⟨hdb, hquiz⟩ := h
      refine ⟨qs, rows, rfl, hmk, hquiz.symm, ?_, ?_⟩
      · rw [← hdb, ← hquiz]
      · rw [← hdb]

/-- The quiz-row table after any save: the one completed quiz row is
appended, whatever happens to the question rows. -/
theorem save_quiz_quizzes (db : DB) (user : Nat) (title url transcript : String)
    (qd : Option (List Json)) :
    ((_save_quiz db user title url transcript qd).1).quizzes =
      db.quizzes ++ [savedQuizRow db user title url transcript] := by
  unfold _save_quiz
  cases qd with
  | none => rfl
  | some qs =>
    cases hmk : mkQuestions (db.quizzes.length + 1) qs with
    | error e => simp [hmk, savedQuizRow]
    | ok rows => simp [hmk, savedQuizRow]

/-- Quiz rows present after any pipeline run were either already there or
are completed. -/
theorem run_pipeline_quizzes (db : DB) (st : PipelineStages) (user : Nat) (url : String) :
    ∀ q ∈ ((_run_pipeline db st user url).1).quizzes,
      q ∈ db.quizzes ∨ q.status = QuizStatusCompleted := by
  intro q hq
  unfold _run_pipeline at hq
  split at hq
  · exact Or.inl hq
  · split at hq
    · exact Or.inl hq
    · split at hq
      · exact Or.inl hq
      · rw [save_quiz_quizzes] at hq
        rcases List.mem_append.mp hq with hl | hr
        · exact Or.inl hl
        · right
          simp only [List.mem_singleton] at hr
          rw [hr]
          rfl

/-! ## Claim theorems -/

/-- C4: If every one of the 3 attempts of generate_quiz fails validation,
generate_quiz makes exactly 3 attempts (its result is unchanged under any
change of the responses beyond attempt 3) and then fails with an error
whose message contains "failed after 3 attempts" and embeds the last
underlying validation message. -/
theorem C4_three_failed_attempts_exhaust (gem : String → Nat → GenResponse)
    (transcript : String) (e1 e2 e3 : String)
    (h1 : _fetch_and_validate gem (_build_prompt transcript) 1 = .error (.valueError e1))
    (h2 : _fetch_and_validate gem (_build_prompt transcript) 2 = .error (.valueError e2))
    (h3 : _fetch_and_validate gem (_build_prompt transcript) 3 = .error (.valueError e3)) :
    generate_quiz true gem transcript =
      .error (.valueError ("Quiz generation failed after 3 attempts. Last error: " ++ e3)) ∧
    (∃ pre post, "Quiz generation failed after 3 attempts. Last error: " ++ e3 =
      pre ++ "failed after 3 attempts" ++ post) ∧
    ∀ gem2 : String → Nat → GenResponse,
      (∀ a, a ≤ MAX_RETRIES → gem2 (_build_prompt transcript) a = gem (_build_prompt transcript) a) →
      generate_quiz true gem2 transcript = generate_quiz true gem transcript := by
  refine ⟨?_, ⟨"Quiz generation ", ". Last error: " ++ e3, rfl⟩, ?_⟩
  · rw [generate_quiz_unfold]
    rw [attempts_cons_err_continue gem _ 1 [2, 3] e1 h1 (by decide)]
    rw [attempts_cons_err_continue gem _ 2 [3] e2 h2 (by decide)]
    exact attempts_last_err gem _ [] e3 h3
  · intro gem2 hag
    rw [generate_quiz_unfold, generate_quiz_unfold]
    refine attempts_congr gem gem2 _ [1, 2, 3] ?_
    intro a ha
    refine hag a ?_
    fin_cases ha <;> decide

/-- C4 witness: three undecodable responses exhaust the retries with the
aggregated message. -/
theorem C4_witness :
    generate_quiz true gemMalformed "S" =
      .error (.valueError "Quiz generation failed after 3 attempts. Last error: Could not parse quiz from AI response: Expecting value: line 1 column 1 (char 0)") :=
  (C4_three_failed_attempts_exhaust gemMalformed "S"
    "Could not parse quiz from AI response: Expecting value: line 1 column 1 (char 0)"
    "Could not parse quiz from AI response: Expecting value: line 1 column 1 (char 0)"
    "Could not parse quiz from AI response: Expecting value: line 1 column 1 (char 0)"
    rfl rfl rfl).1

/-- C5: For every transcript, if the generation call returns a parseable
JSON array of exactly 10 schema-valid records, generate_quiz returns
exactly that list of records, unchanged and in the same order. -/
theorem C5_valid_response_returned_unchanged (gem : String → Nat → GenResponse)
    (transcript : String) (qs : List Json)
    (hgem : ∀ p a, gem p a = .value (.arr qs))
    (hlen : qs.length = 10)
    (hvalid : ∀ q ∈ qs, recordValid q = true) :
    generate_quiz true gem transcript = .ok (some qs) := by
  have hfetch : _fetch_and_validate gem (_build_prompt transcript) 1 = .ok qs := by
    unfold _fetch_and_validate
    rw [hgem]
    show (match generate_quiz_questions (_trim_and_validate qs) with
      | .error e => (.error e : Except PyErr (List Json))
      | .ok _ => .ok (_trim_and_validate qs)) = .ok qs
    have htrim : _trim_and_validate qs = qs := by
      unfold _trim_and_validate
      rw [if_neg (by omega)]
    rw [htrim]
    have hval : generate_quiz_questions qs = .ok qs := by
      unfold generate_quiz_questions
      rw [validateAllFrom_of_valid qs hvalid 1]
    rw [hval]
  rw [generate_quiz_unfold]
  exact attempts_cons_ok gem _ 1 [2, 3] qs hfetch

/-- C5 witness: ten valid records are returned unchanged. -/
theorem C5_witness : generate_quiz true gemSample10 "S" = .ok (some sampleRecords10) :=
  C5_valid_response_returned_unchanged gemSample10 "S" sampleRecords10
    (fun _ _ => rfl) (by decide) (by decide)

/-- C6: After every call to transcribe_audio, whether it returns a
transcript or fails, the input audio file no longer exists on the
filesystem, and the file is removed exactly once when it existed at entry
(never when it did not). -/
theorem C6_transcription_always_deletes_audio (fs : List String) (audio_path : String)
    (whisper : Except PyErr Json) :
    audio_path ∉ (transcribe_audio fs audio_path whisper).fs ∧
    (transcribe_audio fs audio_path whisper).removes = (if audio_path ∈ fs then 1 else 0) := by
  by_cases hmem : audio_path ∈ fs
  · constructor
    · simp [transcribe_audio, hmem, List.mem_filter]
    · simp [transcribe_audio, hmem]
  · constructor
    · simp [transcribe_audio, hmem]
    · simp [transcribe_audio, hmem]

/-- C7: The command-line diagnostic entry point exits with status 1 and a
usage message on a wrong argument count; but on a run whose Generation
stage succeeds with records that passed validation, the printing loop
raises an AttributeError at question_options.items() instead of printing
the options, because validated options are lists, not dicts. -/
theorem C7_sanity_print_crashes_on_validated_records :
    generate_quiz true gemSample10 "S" = .ok (some sampleRecords10) ∧
    sanity_main ["sanity_check.py", "u"] dl0 tr0 (fun t => generate_quiz true gemSample10 t) =
      .ran (.error (.attributeError "list object has no attribute items")) ∧
    sanity_main ["sanity_check.py"] dl0 tr0 (fun t => generate_quiz true gemSample10 t) =
      .usageExit "Usage: python sanity_check.py <youtube_url>" 1 ∧
    sanity_main ["sanity_check.py", "u", "extra"] dl0 tr0 (fun t => generate_quiz true gemSample10 t) =
      .usageExit "Usage: python sanity_check.py <youtube_url>" 1 :=
  ⟨rfl, rfl, rfl, rfl⟩

/-- C1 counterexample: a pipeline run whose generation call returns seven
schema-valid records is reported successful (201) yet persists only seven
Question rows, not ten: the claim "exactly 10, never fewer" fails. -/
theorem C1_counterexample_seven_questions :
    (create db0 (mkStages dl0 tr0 true gemSample7) 1 "u").2 = .created201 quizRow0 ∧
    ((create db0 (mkStages dl0 tr0 true gemSample7) 1 "u").1).questions.length = 7 ∧
    ((create db0 (mkStages dl0 tr0 true gemSample7) 1 "u").1).questions.length ≠ 10 :=
  ⟨rfl, rfl, by decide⟩

/-- C1 amended: a pipeline run reported successful persists the quiz with
one block of question rows all bound to it, numbering at most 10 (the
parsed array is truncated to the first 10) — but possibly fewer than 10,
since no lower bound is checked. -/
theorem C1_amended_at_most_ten_questions (db : DB) (dl : Except PyErr DownloadResult)
    (tr : String → Except PyErr String) (key : Bool) (gem : String → Nat → GenResponse)
    (user : Nat) (url : String) (db2 : DB) (quiz : QuizRow)
    (h : create db (mkStages dl tr key gem) user url = (db2, .created201 quiz)) :
    ∃ rows, db2.quizzes = db.quizzes ++ [quiz] ∧
      db2.questions = db.questions ++ rows ∧
      rows.length ≤ 10 ∧ ∀ r ∈ rows, r.quiz = quiz.id := by
  have hrp := create_ok_dest db _ user url db2 quiz h
  obtain ⟨res, transcript, qd, hdl, htr, hgen, hsave⟩ :=
    run_pipeline_ok_dest db _ user url db2 quiz hrp
  obtain ⟨qs, rows, hqd, hmk, hquiz, hdbq, hdbqs⟩ :=
    save_quiz_ok_dest db user res.title url transcript qd db2 quiz hsave
  have hgen2 : generate_quiz key gem transcript = .ok (some qs) := by
    rw [hqd] at hgen; exact hgen
  obtain ⟨hlen10, hval⟩ := generate_ok_dest key gem transcript qs hgen2
  obtain ⟨hrowslen, hrowsq⟩ := mkQuestions_ok_dest (db.quizzes.length + 1) qs rows hmk
  refine ⟨rows, hdbq, hdbqs, ?_, ?_⟩
  · rw [hrowslen]; exact hlen10
  · intro r hr
    rw [hquiz]
    exact hrowsq r hr

/-- C1 witness: the ten-record run persists exactly its ten rows, all
bound to the created quiz. -/
theorem C1_amended_witness :
    ∃ rows, dbAfter10.quizzes = db0.quizzes ++ [quizRow0] ∧
      dbAfter10.questions = db0.questions ++ rows ∧
      rows.length ≤ 10 ∧ ∀ r ∈ rows, r.quiz = quizRow0.id :=
  C1_amended_at_most_ten_questions db0 dl0 tr0 true gemSample10 1 "u" dbAfter10 quizRow0 rfl

/-- C2 counterexample: generation returns ten records that pass validation
but carry an extra key; building the Question objects then raises a
TypeError after the quiz row was already committed, so the final state
holds the quiz row with zero question rows — persistence is not atomic. -/
theorem C2_counterexample_quiz_without_questions :
    (create db0 (mkStages dl0 tr0 true gemExtraKey) 1 "u").2 =
      .uncaught (.typeError "explanation is an invalid keyword argument for Question") ∧
    ((create db0 (mkStages dl0 tr0 true gemExtraKey) 1 "u").1).quizzes = [quizRow0] ∧
    ((create db0 (mkStages dl0 tr0 true gemExtraKey) 1 "u").1).questions = [] :=
  ⟨rfl, rfl, rfl⟩

/-- C2 amended: on a successful save the quiz row and all its question
rows are persisted together; but the quiz row is committed first, and when
building or persisting the question rows fails, the error propagates while
the quiz row remains, with the question table unchanged. -/
theorem C2_amended_quiz_commits_before_questions (db : DB) (user : Nat)
    (title url transcript : String) (qd : Option (List Json)) :
    (∀ db2 quiz, _save_quiz db user title url transcript qd = (db2, .ok quiz) →
      db2.quizzes = db.quizzes ++ [quiz] ∧
      ∃ qs rows, qd = some qs ∧ db2.questions = db.questions ++ rows ∧
        rows.length = qs.length ∧ ∀ r ∈ rows, r.quiz = quiz.id) ∧
    (∀ db2 e, _save_quiz db user title url transcript qd = (db2, .error e) →
      db2.questions = db.questions ∧
      db2.quizzes = db.quizzes ++ [savedQuizRow db user title url transcript]) := by
  constructor
  · intro db2 quiz h
    obtain ⟨qs, rows, hqd, hmk, hquiz, hdbq, hdbqs⟩ :=
      save_quiz_ok_dest db user title url transcript qd db2 quiz h
    obtain ⟨hrowslen, hrowsq⟩ := mkQuestions_ok_dest (db.quizzes.length + 1) qs rows hmk
    exact ⟨hdbq, qs, rows, hqd, hdbqs, hrowslen,
      fun r hr => by rw [hquiz]; exact hrowsq r hr⟩
  · intro db2 e h
    unfold _save_quiz at h
    dsimp only [] at h
    split at h
    · simp only [Prod.mk.injEq, Except.error.injEq] at h
      obtain ⟨hdb, _⟩ := h
      exact ⟨by rw [← hdb], by rw [← hdb]; rfl⟩
    · rename_i qs
      split at h
      · simp only [Prod.mk.injEq, Except.error.injEq] at h
        obtain ⟨hdb, _⟩ := h
        exact ⟨by rw [← hdb], by rw [← hdb]; rfl⟩
      · simp at h

/-- C2 witness: the ten-record save persists quiz and questions together;
the extra-key save leaves the quiz row and no question rows. -/
theorem C2_amended_witness :
    (dbAfter10.quizzes = db0.quizzes ++ [quizRow0] ∧
      ∃ qs rows, (some sampleRecords10 : Option (List Json)) = some qs ∧
        dbAfter10.questions = db0.questions ++ rows ∧
        rows.length = qs.length ∧ ∀ r ∈ rows, r.quiz = quizRow0.id) ∧
    (dbAfterExtraKeySave.questions = db0.questions ∧
      dbAfterExtraKeySave.quizzes = db0.quizzes ++ [savedQuizRow db0 1 "T" "u" "S"]) :=
  ⟨(C2_amended_quiz_commits_before_questions db0 1 "T" "u" "S" (some sampleRecords10)).1
      dbAfter10 quizRow0 rfl,
   (C2_amended_quiz_commits_before_questions db0 1 "T" "u" "S"
      (some (List.replicate 10 sampleRecordExtraKey))).2 dbAfterExtraKeySave
      (.typeError "explanation is an invalid keyword argument for Question") rfl⟩

/-- C3 counterexample: a transcription failure of the NotFoundError kind
(the modelled transcribe_audio on a filesystem without the audio file)
escapes the create endpoint uncaught instead of becoming a 400 — the
except ValueError handler does not catch FileNotFoundError. -/
theorem C3_counterexample_notfound_escapes :
    (create db0 (mkStages dl0 trMissingFile true gemSample10) 1 "u").2 =
      .uncaught (.fileNotFoundError "Audio file not found: /tmp/audio.mp3") ∧
    (create db0 (mkStages dl0 trMissingFile true gemSample10) 1 "u").2 ≠
      .badRequest400 "Audio file not found: /tmp/audio.mp3" :=
  ⟨rfl, by decide⟩

/-- C3 amended: stage failures raised as ValueError (AcquisitionError,
TranscriptionError, GenerationError) are caught at the create boundary and
become a single 400 whose detail is exactly the originating message; a
NotFoundError (FileNotFoundError) is not caught and escapes uncaught. -/
theorem C3_amended_valueerror_mapped_notfound_escapes (db : DB) (st : PipelineStages)
    (user : Nat) (url m : String) :
    (st.download_audio = .error (.valueError m) →
      create db st user url = (db, .badRequest400 m)) ∧
    (∀ res, st.download_audio = .ok res →
      st.transcribe_audio res.audio_path = .error (.valueError m) →
      create db st user url = (db, .badRequest400 m)) ∧
    (∀ res transcript, st.download_audio = .ok res →
      st.transcribe_audio res.audio_path = .ok transcript →
      st.generate_quiz transcript = .error (.valueError m) →
      create db st user url = (db, .badRequest400 m)) ∧
    (∀ res, st.download_audio = .ok res →
      st.transcribe_audio res.audio_path = .error (.fileNotFoundError m) →
      create db st user url = (db, .uncaught (.fileNotFoundError m))) := by
  refine ⟨?_, ?_, ?_, ?_⟩
  · intro hdl
    simp [create, _run_pipeline, hdl]
  · intro res hdl htr
    simp [create, _run_pipeline, hdl, htr]
  · intro res transcript hdl htr hgen
    simp [create, _run_pipeline, hdl, htr, hgen]
  · intro res hdl htr
    simp [create, _run_pipeline, hdl, htr]

/-- C3 witness: generation exhausting its retries yields a 400 whose
detail is the aggregated generation message. -/
theorem C3_amended_witness :
    create db0 (mkStages dl0 tr0 true gemMalformed) 1 "u" =
      (db0, .badRequest400 "Quiz generation failed after 3 attempts. Last error: Could not parse quiz from AI response: Expecting value: line 1 column 1 (char 0)") :=
  (C3_amended_valueerror_mapped_notfound_escapes db0 (mkStages dl0 tr0 true gemMalformed) 1 "u"
      "Quiz generation failed after 3 attempts. Last error: Could not parse quiz from AI response: Expecting value: line 1 column 1 (char 0)").2.2.1
    { audio_path := "/tmp/audio.mp3", title := "T" } "S" rfl rfl rfl

/-- C8: every quiz row a pipeline run adds has status completed; the model
default is processing, and processing and failed are among the model
choices but are never written by a run. -/
theorem C8_pipeline_writes_only_completed (db : DB) (st : PipelineStages)
    (user : Nat) (url : String) :
    (∀ q ∈ ((create db st user url).1).quizzes,
      q ∈ db.quizzes ∨ q.status = QuizStatusCompleted) ∧
    QuizStatusCompleted = "completed" ∧
    QuizStatusDefault = "processing" ∧
    QuizStatusChoices = ["processing", "completed", "failed"] := by
  refine ⟨?_, rfl, rfl, rfl⟩
  have hfst : (create db st user url).1 = (_run_pipeline db st user url).1 := by
    unfold create
    rcases _run_pipeline db st user url with ⟨db3, r⟩
    cases r with
    | ok quiz => rfl
    | error e => cases e <;> rfl
  rw [hfst]
  exact run_pipeline_quizzes db st user url

/-- C8 witness: the quiz row of the concrete ten-record run is completed. -/
theorem C8_pipeline_writes_only_completed_witness :
    (quizRow0 ∈ db0.quizzes ∨ quizRow0.status = QuizStatusCompleted) ∧
    QuizStatusCompleted = "completed" :=
  ⟨(C8_pipeline_writes_only_completed db0 (mkStages dl0 tr0 true gemSample10) 1 "u").1 quizRow0
      (by rw [show ((create db0 (mkStages dl0 tr0 true gemSample10) 1 "u").1).quizzes = [quizRow0] from rfl]
          exact List.mem_singleton_self _),
   (C8_pipeline_writes_only_completed db0 (mkStages dl0 tr0 true gemSample10) 1 "u").2.1⟩

/-- C9: a record whose question_options value is not a list — in particular
the keyed object encoding — fails `_validate_options` with a ValueError,
and every record a successful generate_quiz run returns uses the
positional encoding (a 4-element list), so no keyed-encoded record is ever
returned or persisted. -/
theorem C9_keyed_options_rejected :
    (∀ (kvs : List (String × Json)) (index : Nat) (v : Json),
      (pyLookup kvs "question_title").isSome = true →
      (pyLookup kvs "answer").isSome = true →
      pyLookup kvs "question_options" = some v →
      v.isArr = false →
      _validate_question_structure (.obj kvs) index =
        .error (.valueError ("Question " ++ toString index ++ " must have exactly 4 answer options as a list. Got: " ++ pyRender v))) ∧
    (∀ (key : Bool) (gem : String → Nat → GenResponse) (transcript : String) (qs : List Json),
      generate_quiz key gem transcript = .ok (some qs) →
      ∀ q ∈ qs, positionalOptions4 q = true) := by
  constructor
  · intro kvs index v ht ha ho hnotarr
    have hreq : _validate_required_keys (.obj kvs) index = .ok () := by
      simp [_validate_required_keys, pyAllContains, requiredKeys, pyContains, ht, ha, ho]
    have hopt : _validate_options (.obj kvs) index =
        .error (.valueError ("Question " ++ toString index ++ " must have exactly 4 answer options as a list. Got: " ++ pyRender v)) := by
      cases v with
      | arr items => simp [Json.isArr] at hnotarr
      | str s => simp [_validate_options, pyGetItem, ho]
      | num n => simp [_validate_options, pyGetItem, ho]
      | bool b => simp [_validate_options, pyGetItem, ho]
      | null => simp [_validate_options, pyGetItem, ho]
      | obj fields => simp [_validate_options, pyGetItem, ho]
    simp [_validate_question_structure, hreq, hopt]
  · intro key gem transcript qs hgen q hq
    obtain ⟨hlen, hval⟩ := generate_ok_dest key gem transcript qs hgen
    obtain ⟨j, hj⟩ := validateAllFrom_mem qs 1 hval q hq
    exact validated_positional q j hj

/-- C9 witness: the concrete keyed record is rejected with the options
ValueError, and the record of the successful sample run is positional. -/
theorem C9_keyed_options_rejected_witness :
    _validate_question_structure (.obj keyedRecordFields) 1 =
      .error (.valueError "Question 1 must have exactly 4 answer options as a list. Got: \x7bA: a1, B: a2, C: a3, D: a4\x7d") ∧
    positionalOptions4 sampleRecord = true :=
  ⟨C9_keyed_options_rejected.1 keyedRecordFields 1
      (.obj [("A", .str "a1"), ("B", .str "a2"), ("C", .str "a3"), ("D", .str "a4")])
      rfl rfl rfl rfl,
   C9_keyed_options_rejected.2 true gemSample10 "S" sampleRecords10 rfl sampleRecord
      (List.mem_replicate.mpr ⟨by decide, rfl⟩)⟩

/-- C10: A parseable JSON-array response whose element is not an object (a
string containing the three required key names as substrings) passes the
required-keys check by substring semantics, then raises a TypeError — not a
ValueError — at the options access; the retry loop does not retry it (the
second attempt would have succeeded) and the create endpoint does not map
it to a 400: it escapes uncaught.  A numeric element raises a TypeError
already at the `in` check. -/
theorem C10_nonobject_element_typeerror_escapes :
    _validate_required_keys (.str "question_title question_options answer") 1 = .ok () ∧
    generate_quiz true gemStringElement "S" =
      .error (.typeError "string indices must be integers") ∧
    pyContains (.num 5) "question_title" =
      .error (.typeError "argument of type int is not iterable") ∧
    (create db0 (mkStages dl0 tr0 true gemStringElement) 1 "u").2 =
      .uncaught (.typeError "string indices must be integers") :=
  ⟨rfl, rfl, rfl, rfl⟩

end Quizly
